import Mathlib

/-!
Verification of the pydoop `setup.py` build orchestrator: a shallow
embedding of its utility functions (staleness check, cleanup, artifact
generation) and of its build pipeline, together with theorems settling
the specification's claims.

Filesystem state is modelled explicitly: an association list from path
strings to the metadata relevant to each function (modification times
for the staleness check, node kinds for `rm_rf`, contents plus mtimes
for the artifact generators).  Python exceptions are modelled with an
`Except`-valued result; a `try/except` block becomes a match on the
error.
-/

deriving instance DecidableEq for Except

namespace Pydoop

/-- Python exceptions that the embedded code can raise or catch. -/
inductive PyErr where
  | osError
  | valueError
  | distutilsSetupError (msg : String)
  deriving DecidableEq, Repr

/-! ### Staleness check (`must_generate`, setup.py lines 86-94)

The filesystem fragment relevant to `must_generate` is a map from path
to modification time; a missing path makes `os.stat` raise `OSError`. -/

/-- Path ↦ mtime association list (first binding wins on lookup). -/
abbrev MtimeFS := List (String × Int)

/-- `mtime(fn) = os.stat(fn).st_mtime`: raises `OSError` when `fn` is absent. -/
def mtimeE (fs : MtimeFS) (fn : String) : Except PyErr Int :=
  match List.lookup fn fs with
  | some m => .ok m
  | none => .error .osError

/-- `max(mtime(p) for p in prerequisites)`: `ValueError` on an empty
sequence, `OSError` from the first missing prerequisite, otherwise the
maximum of the modification times. -/
def maxMtimes (fs : MtimeFS) : List String → Except PyErr Int
  | [] => .error .valueError
  | [p] => mtimeE fs p
  | p :: q :: rest =>
      match mtimeE fs p with
      | .error e => .error e
      | .ok m =>
          match maxMtimes fs (q :: rest) with
          | .error e => .error e
          | .ok mr => .ok (max m mr)

/-- `must_generate(target, prerequisites)` (setup.py lines 90-94): the body
computes `max(mtime(p) for p in prerequisites) > mtime(target)`; an
`OSError` anywhere in the body is caught and turned into `True`; any other
exception (notably the `ValueError` from an empty `max`) propagates. -/
def must_generate (fs : MtimeFS) (target : String) (prerequisites : List String) :
    Except PyErr Bool :=
  let body : Except PyErr Bool :=
    match maxMtimes fs prerequisites with
    | .error e => .error e
    | .ok mx =>
        match mtimeE fs target with
        | .error e => .error e
        | .ok tm => .ok (decide (mx > tm))
  match body with
  | .error .osError => .ok true
  | r => r

/-- One prerequisite's contribution to the spec's staleness policy: the
prerequisite is missing, or the target is missing, or the prerequisite's
mtime is strictly greater than the target's. -/
def staleAt (fs : MtimeFS) (target p : String) : Bool :=
  match List.lookup p fs, List.lookup target fs with
  | none, _ => true
  | some mp, some mt => decide (mp > mt)
  | some _, none => true

/-- The specification's staleness policy, written from the spec's words
(§4.2): stale iff the target is missing, or some prerequisite is missing,
or some prerequisite's mtime is strictly greater than the target's. -/
def isStaleSpec (fs : MtimeFS) (target : String) (prerequisites : List String) : Bool :=
  (List.lookup target fs).isNone || prerequisites.any (staleAt fs target)

theorem staleAt_of_missing (fs : MtimeFS) (target p : String)
    (h : List.lookup p fs = none) : staleAt fs target p = true := by
  simp [staleAt, h]

theorem staleAt_present (fs : MtimeFS) (target p : String) (mp mt : Int)
    (hp : List.lookup p fs = some mp) (ht : List.lookup target fs = some mt) :
    staleAt fs target p = decide (mp > mt) := by
  simp [staleAt, hp, ht]

example :
    must_generate [("t", 5), ("a", 3), ("b", 7)] "t" ["a", "b"] = .ok true := by decide

example :
    must_generate [("t", 9), ("a", 3), ("b", 7)] "t" ["a", "b"] = .ok false := by decide

example :
    must_generate [("a", 3)] "t" ["a"] = .ok true := by decide

example :
    must_generate [("t", 9), ("a", 3)] "t" ["a", "missing"] = .ok true := by decide

example :
    must_generate [("t", 9)] "t" [] = .error .valueError := by decide

/-! Helper lemmas relating `maxMtimes` to lookups. -/

theorem maxMtimes_error_of_missing (fs : MtimeFS) :
    ∀ (ps : List String) (p : String),
      (∃ q ∈ p :: ps, List.lookup q fs = none) →
      maxMtimes fs (p :: ps) = .error .osError := by
  intro ps
  induction ps with
  | nil =>
      intro p hq
      rcases hq with ⟨q, hmem, hnone⟩
      rcases List.mem_singleton.mp hmem with rfl
      simp [maxMtimes, mtimeE, hnone]
  | cons q rest ih =>
      intro p hq
      show maxMtimes fs (p :: q :: rest) = .error .osError
      cases hp : List.lookup p fs with
      | none => simp [maxMtimes, mtimeE, hp]
      | some mp =>
          have hmiss : ∃ r ∈ q :: rest, List.lookup r fs = none := by
            rcases hq with ⟨r, hmem, hnone⟩
            rcases List.mem_cons.mp hmem with rfl | hmem'
            · exact absurd hnone (by simp [hp])
            · exact ⟨r, hmem', hnone⟩
          simp [maxMtimes, mtimeE, hp, ih q hmiss]

theorem maxMtimes_ok_of_present (fs : MtimeFS) :
    ∀ (ps : List String) (p : String),
      (∀ q ∈ p :: ps, ∃ m, List.lookup q fs = some m) →
      ∃ mx, maxMtimes fs (p :: ps) = .ok mx ∧
        ∀ tm : Int, mx > tm ↔ ∃ q ∈ p :: ps, ∃ mq,
          List.lookup q fs = some mq ∧ mq > tm := by
  intro ps
  induction ps with
  | nil =>
      intro p hpres
      rcases hpres p (List.mem_singleton.mpr rfl) with ⟨m, hm⟩
      refine ⟨m, by simp [maxMtimes, mtimeE, hm], ?_⟩
      intro tm
      constructor
      · intro h
        exact ⟨p, List.mem_singleton.mpr rfl, m, hm, h⟩
      · rintro ⟨q, hmem, mq, hq, hgt⟩
        rcases List.mem_singleton.mp hmem with rfl
        rw [hm] at hq
        exact (Option.some.inj hq) ▸ hgt
  | cons q rest ih =>
      intro p hpres
      rcases hpres p (List.mem_cons_self _ _) with ⟨mp, hp⟩
      have hpres' : ∀ r ∈ q :: rest, ∃ m, List.lookup r fs = some m :=
        fun r hr => hpres r (List.mem_cons_of_mem _ hr)
      rcases ih q hpres' with ⟨mx, hmx, hiff⟩
      refine ⟨max mp mx, ?_, ?_⟩
      · show maxMtimes fs (p :: q :: rest) = .ok (max mp mx)
        simp [maxMtimes, mtimeE, hp, hmx]
      · intro tm
        rw [show (max mp mx > tm) = (tm < max mp mx) from rfl, lt_max_iff]
        constructor
        · rintro (h | h)
          · exact ⟨p, List.mem_cons_self _ _, mp, hp, h⟩
          · rcases (hiff tm).mp h with ⟨r, hrmem, mr, hr, hgt⟩
            exact ⟨r, List.mem_cons_of_mem _ hrmem, mr, hr, hgt⟩
        · rintro ⟨r, hrmem, mr, hr, hgt⟩
          rcases List.mem_cons.mp hrmem with rfl | hrmem'
          · rw [hp] at hr
            exact Or.inl ((Option.some.inj hr) ▸ hgt)
          · exact Or.inr ((hiff tm).mpr ⟨r, hrmem', mr, hr, hgt⟩)

/-- Core characterization: on a non-empty prerequisite list,
`must_generate` returns `.ok` of the spec's staleness predicate. -/
theorem must_generate_eq_ok_staleSpec (fs : MtimeFS) (target p : String)
    (ps : List String) :
    must_generate fs target (p :: ps) = .ok (isStaleSpec fs target (p :: ps)) := by
  by_cases hmiss : ∃ q ∈ p :: ps, List.lookup q fs = none
  · have h1 := maxMtimes_error_of_missing fs ps p hmiss
    have h2 : isStaleSpec fs target (p :: ps) = true := by
      rcases hmiss with ⟨q, hmem, hnone⟩
      have hany : (p :: ps).any (staleAt fs target) = true :=
        List.any_eq_true.mpr ⟨q, hmem, staleAt_of_missing fs target q hnone⟩
      simp [isStaleSpec, hany]
    rw [h2]
    simp [must_generate, h1]
  · push_neg at hmiss
    have hpres : ∀ q ∈ p :: ps, ∃ m, List.lookup q fs = some m := by
      intro q hq
      cases h : List.lookup q fs with
      | none => exact absurd h (hmiss q hq)
      | some m => exact ⟨m, rfl⟩
    rcases maxMtimes_ok_of_present fs ps p hpres with ⟨mx, hmx, hiff⟩
    cases ht : List.lookup target fs with
    | none =>
        have h2 : isStaleSpec fs target (p :: ps) = true := by
          simp [isStaleSpec, ht]
        rw [h2]
        simp [must_generate, hmx, mtimeE, ht]
    | some mt =>
        have hval : must_generate fs target (p :: ps) = .ok (decide (mx > mt)) := by
          simp [must_generate, hmx, mtimeE, ht]
        rw [hval]
        have hbool : decide (mx > mt) = isStaleSpec fs target (p :: ps) := by
          rw [Bool.eq_iff_iff]
          constructor
          · intro hd
            have hgt : mx > mt := of_decide_eq_true hd
            rcases (hiff mt).mp hgt with ⟨q, hqmem, mq, hq, hqgt⟩
            have hany : (p :: ps).any (staleAt fs target) = true :=
              List.any_eq_true.mpr ⟨q, hqmem, by
                rw [staleAt_present fs target q mq mt hq ht]
                exact decide_eq_true hqgt⟩
            simp [isStaleSpec, hany]
          · intro hspec
            have hany : (p :: ps).any (staleAt fs target) = true := by
              simpa [isStaleSpec, ht] using hspec
            rcases List.any_eq_true.mp hany with ⟨q, hqmem, hqtrue⟩
            rcases hpres q hqmem with ⟨mq, hq⟩
            rw [staleAt_present fs target q mq mt hq ht] at hqtrue
            exact decide_eq_true ((hiff mt).mpr ⟨q, hqmem, mq, hq, of_decide_eq_true hqtrue⟩)
        rw [hbool]

/-- C1: For every target path and every non-empty sequence of prerequisite
paths, `must_generate` returns a boolean that is `true` iff the target is
missing or some prerequisite is missing or has a modification time strictly
greater than the target's.  (The embedding is a pure function of the
filesystem snapshot: it returns no updated filesystem, so the check performs
no mutation by construction.) -/
theorem must_generate_matches_spec (fs : MtimeFS) (target p : String)
    (ps : List String) :
    must_generate fs target (p :: ps) = .ok (isStaleSpec fs target (p :: ps)) :=
  must_generate_eq_ok_staleSpec fs target p ps

/-- C10: With an empty prerequisite sequence and an existing target,
`must_generate` does not return a boolean: `max` over the empty sequence
raises a `ValueError`, which the `except OSError` handler does not catch. -/
theorem must_generate_empty_prereqs_valueError (fs : MtimeFS) (target : String)
    (h : ∃ m, List.lookup target fs = some m) :
    must_generate fs target [] = .error .valueError := by
  rcases h with ⟨m, _⟩
  simp [must_generate, maxMtimes]

/-- Witness for C10 at a concrete filesystem holding only the target. -/
theorem must_generate_empty_prereqs_valueError_witness :
    must_generate [("pydoop/version.py", (9 : Int))] "pydoop/version.py" []
      = .error .valueError :=
  must_generate_empty_prereqs_valueError [("pydoop/version.py", (9 : Int))]
    "pydoop/version.py" ⟨9, rfl⟩

/-! ### Extension selection (setup.py lines 152-190)

`build_hdfscore_native_impl` and `build_sercore_extension` construct
`distutils.Extension` values and append them to the module-level
`EXTENSION_MODULES` registry.  The toolchain facts supplied by the
external `pydoop.utils.jvm` module and the environment (`JAVA_HOME`,
`JVM_LIB_PATH`) are parameters of the embedding; the detected Hadoop
version (`pydoop.hadoop_utils`, external to the repository) is a
structure carrying the full version tuple, the `main` version tuple and
the string form. -/

/-- `os.path.join(a, b)` for the relative components used in setup.py. -/
def pathJoin (a b : String) : String := a ++ ("/" ++ b)

/-- Detected Hadoop version (external `pydoop.hadoop_utils` value): the
full version `tuple`, the `main` version tuple compared against
`(2, 2, 0)` in `JavaLib`, and the `str()` form used in paths. -/
structure HadoopVersionInfo where
  tuple : List Nat
  main : List Nat
  vstr : String
  deriving DecidableEq, Repr

/-- `HADOOP_VERSION_INFO.tuple[0]`, the platform major version. -/
def hadoopMajor (vinfo : HadoopVersionInfo) : Nat := vinfo.tuple.headD 0

/-- Toolchain facts from `pydoop.utils.jvm` and the environment:
`jvm.get_include_dirs()`, `jvm.get_libraries()`, `jvm.get_macros()`,
`JAVA_HOME`, `JVM_LIB_PATH`. -/
structure ToolchainEnv where
  java_home : String
  jvm_lib_path : String
  include_dirs : List String
  libraries : List String
  macros : List (String × Int)
  deriving DecidableEq, Repr

/-- A `distutils.Extension` value, restricted to the keyword arguments
setup.py passes. -/
structure Extension where
  name : String
  include_dirs : List String := []
  libraries : List String := []
  library_dirs : List String := []
  sources : List String := []
  define_macros : List (String × Int) := []
  extra_compile_args : List String := []
  deriving DecidableEq, Repr

/-- `os.path.join('src/libhdfs', str(HADOOP_VERSION_INFO))`. -/
def hdfsVersionedDir (vinfo : HadoopVersionInfo) : String :=
  pathJoin "src/libhdfs" vinfo.vstr

/-- The `hdfs_ext_sources` list of `build_hdfscore_native_impl`
(setup.py lines 154-165): version-gated libhdfs sources followed by the
fixed `native_core_hdfs` C++ sources. -/
def hdfs_ext_sources (vinfo : HadoopVersionInfo) : List String :=
  ((if hadoopMajor vinfo ≤ 1 then
      ["hdfs.c", "hdfsJniHelper.c"]
    else
      ["hdfs.c", "jni_helper.c", "exception.c", "native_mini_dfs.c"]).map
    (fun x => pathJoin (hdfsVersionedDir vinfo) x)) ++
  (["hdfs_module.cc", "hdfs_file.cc", "hdfs_fs.cc"].map
    (fun x => pathJoin "src/native_core_hdfs" x))

/-- The `libhdfs_macros` list (setup.py lines 166-167). -/
def libhdfs_macros (vinfo : HadoopVersionInfo) : List (String × Int) :=
  [((if hadoopMajor vinfo ≤ 1 then "HADOOP_LIBHDFS_V1" else "HADOOP_LIBHDFS_V2"), 1)]

/-- The `native_core_hdfs` Extension built by `build_hdfscore_native_impl`
(setup.py lines 168-178). -/
def native_hdfs_core (env : ToolchainEnv) (vinfo : HadoopVersionInfo) : Extension :=
  { name := "native_core_hdfs"
    include_dirs := env.include_dirs ++ [hdfsVersionedDir vinfo]
    libraries := env.libraries
    library_dirs := [env.java_home ++ "/Libraries", env.jvm_lib_path]
    sources := hdfs_ext_sources vinfo
    define_macros := env.macros ++ libhdfs_macros vinfo
    extra_compile_args := ["-Xlinker", "-rpath", env.jvm_lib_path] }

/-- The `pydoop_sercore` Extension built by `build_sercore_extension`
(setup.py lines 182-190). -/
def binary_encoder : Extension :=
  { name := "pydoop_sercore"
    sources := ["protocol_codec.cc", "SerialUtils.cc", "StringUtils.cc"].map
      (fun x => pathJoin "src/serialize" x)
    extra_compile_args := ["-O3"] }

/-- `hdfsimpl.NATIVE` (external `pydoop.hdfs.core.impl` constant): the
implementation-mode string selecting the native HDFS backend. -/
def NATIVE : String := "native"

/-- The extension-registering part of `BuildPydoop.run` (setup.py lines
308-310) as a registry transformer: `build_sercore_extension()` appends
the codec extension, then, in native mode only,
`build_hdfscore_native_impl()` appends the HDFS extension. -/
def generationExtensions (env : ToolchainEnv) (vinfo : HadoopVersionInfo)
    (hdfs_core_impl : String) (registry : List Extension) : List Extension :=
  let r := registry ++ [binary_encoder]
  if hdfs_core_impl = NATIVE then r ++ [native_hdfs_core env vinfo] else r

/-- Two strings with (reversed) incompatible suffixes stay different under
arbitrary prefixes. -/
theorem append_ne_of_no_common_suffix (a b x y : String)
    (h1 : ¬ x.data.reverse <+: y.data.reverse)
    (h2 : ¬ y.data.reverse <+: x.data.reverse) :
    a ++ x ≠ b ++ y := by
  intro he
  have hd : a.data ++ x.data = b.data ++ y.data := by
    have := congrArg String.data he
    simpa [String.data_append] using this
  have hrev : x.data.reverse ++ a.data.reverse = y.data.reverse ++ b.data.reverse := by
    have := congrArg List.reverse hd
    simpa [List.reverse_append] using this
  have p1 : x.data.reverse <+: x.data.reverse ++ a.data.reverse :=
    List.prefix_append _ _
  have p2 : y.data.reverse <+: x.data.reverse ++ a.data.reverse := by
    rw [hrev]
    exact List.prefix_append _ _
  rcases List.prefix_or_prefix_of_prefix p1 p2 with h | h
  · exact h1 h
  · exact h2 h

/-- Specialization to `pathJoin`: joining filenames with incompatible
suffixes onto any directories yields different paths. -/
theorem pathJoin_ne_of_no_common_suffix (d e x y : String)
    (h1 : ¬ ("/" ++ x).data.reverse <+: ("/" ++ y).data.reverse)
    (h2 : ¬ ("/" ++ y).data.reverse <+: ("/" ++ x).data.reverse) :
    pathJoin d x ≠ pathJoin e y :=
  append_ne_of_no_common_suffix d e ("/" ++ x) ("/" ++ y) h1 h2

/-- C2: In native mode, extension selection partitions totally and mutually
exclusively on the platform major version: major ≤ 1 selects exactly the
legacy libhdfs sources (`hdfs.c`, `hdfsJniHelper.c`) plus the fixed C++
core, defines the `HADOOP_LIBHDFS_V1` macro, and never includes the
V2-only sources or the `HADOOP_LIBHDFS_V2` macro; major ≥ 2 selects the
newer source set including `exception.c` (exception translation) and
`native_mini_dfs.c` (embedded test cluster), defines `HADOOP_LIBHDFS_V2`,
and never `HADOOP_LIBHDFS_V1`. -/
theorem hdfs_extension_version_partition (env : ToolchainEnv) (vinfo : HadoopVersionInfo) :
    (hadoopMajor vinfo ≤ 1 →
      (native_hdfs_core env vinfo).sources =
        [pathJoin (hdfsVersionedDir vinfo) "hdfs.c",
         pathJoin (hdfsVersionedDir vinfo) "hdfsJniHelper.c",
         pathJoin "src/native_core_hdfs" "hdfs_module.cc",
         pathJoin "src/native_core_hdfs" "hdfs_file.cc",
         pathJoin "src/native_core_hdfs" "hdfs_fs.cc"] ∧
      (native_hdfs_core env vinfo).define_macros =
        env.macros ++ [("HADOOP_LIBHDFS_V1", 1)] ∧
      pathJoin (hdfsVersionedDir vinfo) "exception.c" ∉
        (native_hdfs_core env vinfo).sources ∧
      pathJoin (hdfsVersionedDir vinfo) "native_mini_dfs.c" ∉
        (native_hdfs_core env vinfo).sources ∧
      ("HADOOP_LIBHDFS_V2", 1) ∉ libhdfs_macros vinfo) ∧
    (2 ≤ hadoopMajor vinfo →
      (native_hdfs_core env vinfo).sources =
        [pathJoin (hdfsVersionedDir vinfo) "hdfs.c",
         pathJoin (hdfsVersionedDir vinfo) "jni_helper.c",
         pathJoin (hdfsVersionedDir vinfo) "exception.c",
         pathJoin (hdfsVersionedDir vinfo) "native_mini_dfs.c",
         pathJoin "src/native_core_hdfs" "hdfs_module.cc",
         pathJoin "src/native_core_hdfs" "hdfs_file.cc",
         pathJoin "src/native_core_hdfs" "hdfs_fs.cc"] ∧
      (native_hdfs_core env vinfo).define_macros =
        env.macros ++ [("HADOOP_LIBHDFS_V2", 1)] ∧
      pathJoin (hdfsVersionedDir vinfo) "hdfsJniHelper.c" ∉
        (native_hdfs_core env vinfo).sources ∧
      ("HADOOP_LIBHDFS_V1", 1) ∉ libhdfs_macros vinfo) ∧
    (hadoopMajor vinfo ≤ 1 ∨ 2 ≤ hadoopMajor vinfo) ∧
    ¬ (hadoopMajor vinfo ≤ 1 ∧ 2 ≤ hadoopMajor vinfo) := by
  refine ⟨?_, ?_, by omega, by omega⟩
  · intro h1
    have hsrc : (native_hdfs_core env vinfo).sources =
        [pathJoin (hdfsVersionedDir vinfo) "hdfs.c",
         pathJoin (hdfsVersionedDir vinfo) "hdfsJniHelper.c",
         pathJoin "src/native_core_hdfs" "hdfs_module.cc",
         pathJoin "src/native_core_hdfs" "hdfs_file.cc",
         pathJoin "src/native_core_hdfs" "hdfs_fs.cc"] := by
      simp [native_hdfs_core, hdfs_ext_sources, h1]
    refine ⟨hsrc, by simp [native_hdfs_core, libhdfs_macros, h1], ?_, ?_, ?_⟩
    · rw [hsrc]
      simp only [List.mem_cons, List.not_mem_nil, or_false, not_or]
      exact ⟨pathJoin_ne_of_no_common_suffix _ _ _ _ (by decide) (by decide),
             pathJoin_ne_of_no_common_suffix _ _ _ _ (by decide) (by decide),
             pathJoin_ne_of_no_common_suffix _ _ _ _ (by decide) (by decide),
             pathJoin_ne_of_no_common_suffix _ _ _ _ (by decide) (by decide),
             pathJoin_ne_of_no_common_suffix _ _ _ _ (by decide) (by decide)⟩
    · rw [hsrc]
      simp only [List.mem_cons, List.not_mem_nil, or_false, not_or]
      exact ⟨pathJoin_ne_of_no_common_suffix _ _ _ _ (by decide) (by decide),
             pathJoin_ne_of_no_common_suffix _ _ _ _ (by decide) (by decide),
             pathJoin_ne_of_no_common_suffix _ _ _ _ (by decide) (by decide),
             pathJoin_ne_of_no_common_suffix _ _ _ _ (by decide) (by decide),
             pathJoin_ne_of_no_common_suffix _ _ _ _ (by decide) (by decide)⟩
    · simp [libhdfs_macros, h1]
  · intro h2
    have h1 : ¬ hadoopMajor vinfo ≤ 1 := by omega
    have hsrc : (native_hdfs_core env vinfo).sources =
        [pathJoin (hdfsVersionedDir vinfo) "hdfs.c",
         pathJoin (hdfsVersionedDir vinfo) "jni_helper.c",
         pathJoin (hdfsVersionedDir vinfo) "exception.c",
         pathJoin (hdfsVersionedDir vinfo) "native_mini_dfs.c",
         pathJoin "src/native_core_hdfs" "hdfs_module.cc",
         pathJoin "src/native_core_hdfs" "hdfs_file.cc",
         pathJoin "src/native_core_hdfs" "hdfs_fs.cc"] := by
      simp [native_hdfs_core, hdfs_ext_sources, h1]
    refine ⟨hsrc, by simp [native_hdfs_core, libhdfs_macros, h1], ?_, ?_⟩
    · rw [hsrc]
      simp only [List.mem_cons, List.not_mem_nil, or_false, not_or]
      exact ⟨pathJoin_ne_of_no_common_suffix _ _ _ _ (by decide) (by decide),
             pathJoin_ne_of_no_common_suffix _ _ _ _ (by decide) (by decide),
             pathJoin_ne_of_no_common_suffix _ _ _ _ (by decide) (by decide),
             pathJoin_ne_of_no_common_suffix _ _ _ _ (by decide) (by decide),
             pathJoin_ne_of_no_common_suffix _ _ _ _ (by decide) (by decide),
             pathJoin_ne_of_no_common_suffix _ _ _ _ (by decide) (by decide),
             pathJoin_ne_of_no_common_suffix _ _ _ _ (by decide) (by decide)⟩
    · simp [libhdfs_macros, h1]

/-- C2 witness: concrete check at Hadoop 1.0.4 with an empty toolchain
macro list. -/
theorem hdfs_extension_version_partition_witness :
    (native_hdfs_core
        ⟨"/opt/jdk", "/opt/jdk/jre/lib/amd64/server", [], [], []⟩
        ⟨[1, 0, 4], [1, 0, 4], "1.0.4"⟩).define_macros =
      [("HADOOP_LIBHDFS_V1", 1)] ∧
    ("HADOOP_LIBHDFS_V2", 1) ∉ libhdfs_macros ⟨[1, 0, 4], [1, 0, 4], "1.0.4"⟩ := by
  have h := hdfs_extension_version_partition
    ⟨"/opt/jdk", "/opt/jdk/jre/lib/amd64/server", [], [], []⟩
    ⟨[1, 0, 4], [1, 0, 4], "1.0.4"⟩
  exact ⟨(h.1 (by decide)).2.1, (h.1 (by decide)).2.2.2.2⟩

/-- C4 counterexample: running the extension-registering generation phase
twice (native mode, Hadoop 2.6.0, a concrete toolchain) does not leave the
registry equal to the registry after one run — each entry is appended a
second time. -/
theorem generation_phase_not_idempotent :
    generationExtensions
        ⟨"/opt/jdk", "/opt/jdk/jre/lib/amd64/server", [], [], []⟩
        ⟨[2, 6, 0], [2, 6, 0], "2.6.0"⟩ "native"
        (generationExtensions
          ⟨"/opt/jdk", "/opt/jdk/jre/lib/amd64/server", [], [], []⟩
          ⟨[2, 6, 0], [2, 6, 0], "2.6.0"⟩ "native" []) ≠
      generationExtensions
        ⟨"/opt/jdk", "/opt/jdk/jre/lib/amd64/server", [], [], []⟩
        ⟨[2, 6, 0], [2, 6, 0], "2.6.0"⟩ "native" [] := by decide

/-- C4 amended: the generation phase is append-only, not idempotent — a
second run appends a fresh copy of every extension spec, so the registry
after two runs is the one-run registry concatenated with itself (and the
one-run registry is non-empty, so duplicates do arise in every
implementation mode). -/
theorem generation_phase_appends (env : ToolchainEnv) (vinfo : HadoopVersionInfo)
    (mode : String) :
    (∀ registry, generationExtensions env vinfo mode registry =
        registry ++ generationExtensions env vinfo mode []) ∧
    generationExtensions env vinfo mode (generationExtensions env vinfo mode []) =
      generationExtensions env vinfo mode [] ++ generationExtensions env vinfo mode [] ∧
    generationExtensions env vinfo mode [] ≠ [] := by
  have happ : ∀ registry, generationExtensions env vinfo mode registry =
      registry ++ generationExtensions env vinfo mode [] := by
    intro registry
    by_cases h : mode = NATIVE <;> simp [generationExtensions, h]
  refine ⟨happ, happ _, ?_⟩
  by_cases h : mode = NATIVE <;> simp [generationExtensions, h]

/-! ### JVM-component source selection (`JavaLib.__init__`, setup.py 204-219)

`JavaLib` collects a fixed base file, the glob of the `pipes` source
directory, and — only when `hadoop_vinfo.main >= (2, 2, 0)` — the glob of
the `mapreduce/pipes` source directory.  Glob results are filesystem
facts and enter the embedding as parameters.  Python compares version
tuples lexicographically with a shorter tuple ranking below any extension
of it; `pyTupleLt` embeds that order. -/

/-- Python `<` on int tuples (here: lists of naturals). -/
def pyTupleLt : List Nat → List Nat → Bool
  | [], [] => false
  | [], _ :: _ => true
  | _ :: _, [] => false
  | a :: as, b :: bs => if a < b then true else if a = b then pyTupleLt as bs else false

/-- Python `>=` on int tuples: tuples are totally ordered, so `x >= y`
is the negation of `x < y`. -/
def pyTupleGe (x y : List Nat) : Bool := ! pyTupleLt x y

example : pyTupleGe [2, 2, 0] [2, 2, 0] = true := by decide
example : pyTupleGe [2, 2] [2, 2, 0] = false := by decide
example : pyTupleGe [2, 0, 0] [2, 2, 0] = false := by decide
example : pyTupleGe [2, 6, 0] [2, 2, 0] = true := by decide

/-- `JavaLib.__init__`'s `java_files` (setup.py lines 210-219): the fixed
base file, the `pipes` glob, and the `mapreduce/pipes` glob gated on
`hadoop_vinfo.main >= (2, 2, 0)`. -/
def javaLibFiles (vinfo : HadoopVersionInfo)
    (pipesGlob mrPipesGlob : List String) : List String :=
  (["src/it/crs4/pydoop/NoSeparatorTextOutputFormat.java"] ++ pipesGlob) ++
    (if pyTupleGe vinfo.main [2, 2, 0] then mrPipesGlob else [])

/-- A tuple that is `>= (2, 2, 0)` in Python's order has major component
at least 2. -/
theorem pyTupleGe_220_major (m : List Nat) (h : pyTupleGe m [2, 2, 0] = true) :
    2 ≤ m.headD 0 := by
  cases m with
  | nil => simp [pyTupleGe, pyTupleLt] at h
  | cons a rest =>
      by_contra hlt
      push_neg at hlt
      have ha : a < 2 := by simpa using hlt
      have hfalse : pyTupleLt (a :: rest) [2, 2, 0] = true := by
        simp [pyTupleLt, ha]
      rw [pyTupleGe, hfalse] at h
      simp at h

/-- C3 counterexample: at Hadoop 2.0.0 the platform major version is ≥ 2,
yet the `mapreduce/pipes` sources are NOT added — `(2, 0, 0) >= (2, 2, 0)`
is false, so the JVM-component source list is just the base list plus the
`pipes` glob, contradicting the claim that the extra directory is included
exactly when the major version is ≥ 2. -/
theorem javaLib_major_two_missing_extra_dir :
    2 ≤ hadoopMajor ⟨[2, 0, 0], [2, 0, 0], "2.0.0"⟩ ∧
    javaLibFiles ⟨[2, 0, 0], [2, 0, 0], "2.0.0"⟩
        ["src/it/crs4/pydoop/pipes/Submitter.java"]
        ["src/it/crs4/pydoop/mapreduce/pipes/Submitter.java"] ≠
      (["src/it/crs4/pydoop/NoSeparatorTextOutputFormat.java"] ++
        ["src/it/crs4/pydoop/pipes/Submitter.java"]) ++
        ["src/it/crs4/pydoop/mapreduce/pipes/Submitter.java"] := by decide

/-- C3 amended: the JVM-component source list is the fixed base list plus
the `pipes` glob, with the `mapreduce/pipes` glob appended exactly when the
detected main version is `>= (2, 2, 0)` in Python's tuple order (a strictly
stronger condition than major ≥ 2: it implies major ≥ 2 but excludes e.g.
2.0.0 and 2.1.x). -/
theorem javaLib_sources_gated_by_main (vinfo : HadoopVersionInfo)
    (pipesGlob mrPipesGlob : List String) :
    (pyTupleGe vinfo.main [2, 2, 0] = true →
      javaLibFiles vinfo pipesGlob mrPipesGlob =
        (["src/it/crs4/pydoop/NoSeparatorTextOutputFormat.java"] ++ pipesGlob) ++
          mrPipesGlob) ∧
    (pyTupleGe vinfo.main [2, 2, 0] = false →
      javaLibFiles vinfo pipesGlob mrPipesGlob =
        ["src/it/crs4/pydoop/NoSeparatorTextOutputFormat.java"] ++ pipesGlob) ∧
    (pyTupleGe vinfo.main [2, 2, 0] = true → 2 ≤ vinfo.main.headD 0) := by
  refine ⟨fun h => by simp [javaLibFiles, h], fun h => by simp [javaLibFiles, h],
    pyTupleGe_220_major vinfo.main⟩

/-- C3 amended-claim witness at Hadoop 2.6.0. -/
theorem javaLib_sources_gated_by_main_witness :
    javaLibFiles ⟨[2, 6, 0], [2, 6, 0], "2.6.0"⟩
        ["src/it/crs4/pydoop/pipes/Submitter.java"]
        ["src/it/crs4/pydoop/mapreduce/pipes/Submitter.java"] =
      (["src/it/crs4/pydoop/NoSeparatorTextOutputFormat.java"] ++
        ["src/it/crs4/pydoop/pipes/Submitter.java"]) ++
        ["src/it/crs4/pydoop/mapreduce/pipes/Submitter.java"] :=
  (javaLib_sources_gated_by_main ⟨[2, 6, 0], [2, 6, 0], "2.6.0"⟩
    ["src/it/crs4/pydoop/pipes/Submitter.java"]
    ["src/it/crs4/pydoop/mapreduce/pipes/Submitter.java"]).1 (by decide)

/-! ### Best-effort removal (`rm_rf`, setup.py lines 68-83)

The filesystem fragment relevant to `rm_rf` maps each path to a node
kind: plain file, directory, or symbolic link (with its target path).
`os.path.isdir` follows links (with an OS-imposed bound on chains, so a
cycle simply reports "not a directory"); `os.path.islink` does not;
`os.remove` deletes a file or a link (never following it) and raises
`OSError` on a missing path or a directory; `shutil.rmtree` deletes a
directory and everything below it. -/

/-- A filesystem node: plain file, directory, or symbolic link. -/
inductive FsNode where
  | file
  | dirE
  | link (target : String)
  deriving DecidableEq, Repr

/-- Path ↦ node association list. -/
abbrev NodeFS := List (String × FsNode)

/-- Resolve a path through symbolic links, with fuel bounding the chain
length (a cycle resolves to `none`, as the OS reports `ELOOP`). -/
def resolveNode (fs : NodeFS) : Nat → String → Option FsNode
  | 0, _ => none
  | n + 1, p =>
      match List.lookup p fs with
      | some (.link t) => resolveNode fs n t
      | e => e

/-- `os.path.isdir`: true iff the path resolves (following links) to a
directory. -/
def os_isdir (fs : NodeFS) (p : String) : Bool :=
  resolveNode fs (fs.length + 1) p == some .dirE

/-- `os.path.islink`: true iff the path itself is a symbolic link. -/
def os_islink (fs : NodeFS) (p : String) : Bool :=
  match List.lookup p fs with
  | some (.link _) => true
  | _ => false

/-- Remove every binding of one exact path. -/
def fsEraseEntry (fs : NodeFS) (p : String) : NodeFS :=
  fs.filter (fun e => e.1 != p)

/-- `shutil.rmtree`: remove the directory and every path below it (link
entries below it are removed as entries, not followed). -/
def rmtreeNodes (fs : NodeFS) (p : String) : NodeFS :=
  fs.filter (fun e => !(e.1 == p || (p ++ "/").isPrefixOf e.1))

/-- `os.remove`: delete a file or symbolic link entry; `OSError` on a
missing path or on a directory. -/
def os_remove (fs : NodeFS) (p : String) : Except PyErr NodeFS :=
  match List.lookup p fs with
  | none => .error .osError
  | some .dirE => .error .osError
  | some _ => .ok (fsEraseEntry fs p)

/-- `rm_rf(path, dry_run)` (setup.py lines 68-83): log, return early on a
dry run, otherwise `rmtree` a non-link directory and `os.remove` anything
else, swallowing `OSError`.  The second component of the result is the
emitted log. -/
def rm_rf (fs : NodeFS) (path : String) (dry_run : Bool) :
    Except PyErr (NodeFS × List String) :=
  let logged := ["removing " ++ path]
  if dry_run then .ok (fs, logged)
  else
    let body : Except PyErr NodeFS :=
      if os_isdir fs path && ! os_islink fs path then .ok (rmtreeNodes fs path)
      else os_remove fs path
    match body with
    | .error .osError => .ok (fs, logged)
    | .error e => .error e
    | .ok fs' => .ok (fs', logged)

theorem lookup_fsEraseEntry (fs : NodeFS) (p q : String) (h : q ≠ p) :
    List.lookup q (fsEraseEntry fs p) = List.lookup q fs := by
  induction fs with
  | nil => rfl
  | cons e rest ih =>
      obtain ⟨k, v⟩ := e
      by_cases hk : k = p
      · subst hk
        have hq : (q == k) = false := by simp [h]
        simp [fsEraseEntry, List.lookup, hq] at ih ⊢
        exact ih
      · have hkeep : (k != p) = true := by simp [hk]
        by_cases hqk : q = k
        · subst hqk
          simp [fsEraseEntry, List.lookup, hkeep]
        · have hq : (q == k) = false := by simp [hqk]
          simp [fsEraseEntry, List.lookup, hkeep, hq] at ih ⊢
          exact ih

/-- C9: `rm_rf` always returns normally (every `OSError`, including a
missing path, is swallowed), logs the removal, and removes: only the link
entry for a symbolic link (all other paths, in particular the referent,
keep their bindings), the whole subtree for a non-link directory, the
single entry for a plain file, and nothing when the path does not exist. -/
theorem rm_rf_spec (fs : NodeFS) (p : String) :
    (∃ r, rm_rf fs p false = .ok r) ∧
    (∀ t, List.lookup p fs = some (.link t) →
      rm_rf fs p false = .ok (fsEraseEntry fs p, ["removing " ++ p]) ∧
      ∀ q, q ≠ p → List.lookup q (fsEraseEntry fs p) = List.lookup q fs) ∧
    (List.lookup p fs = some .dirE →
      rm_rf fs p false = .ok (rmtreeNodes fs p, ["removing " ++ p])) ∧
    (List.lookup p fs = some .file →
      rm_rf fs p false = .ok (fsEraseEntry fs p, ["removing " ++ p])) ∧
    (List.lookup p fs = none →
      rm_rf fs p false = .ok (fs, ["removing " ++ p])) := by
  refine ⟨?_, ?_, ?_, ?_, ?_⟩
  · by_cases hc : (os_isdir fs p && ! os_islink fs p) = true
    · exact ⟨(rmtreeNodes fs p, ["removing " ++ p]), by simp [rm_rf, hc]⟩
    · cases hl : List.lookup p fs with
      | none =>
          exact ⟨(fs, ["removing " ++ p]), by simp [rm_rf, hc, os_remove, hl]⟩
      | some node =>
          cases node with
          | file =>
              exact ⟨(fsEraseEntry fs p, ["removing " ++ p]),
                by simp [rm_rf, hc, os_remove, hl]⟩
          | dirE =>
              exact ⟨(fs, ["removing " ++ p]), by simp [rm_rf, hc, os_remove, hl]⟩
          | link t =>
              exact ⟨(fsEraseEntry fs p, ["removing " ++ p]),
                by simp [rm_rf, hc, os_remove, hl]⟩
  · intro t hl
    have hlink : os_islink fs p = true := by simp [os_islink, hl]
    have hc : (os_isdir fs p && ! os_islink fs p) = false := by
      simp [hlink]
    exact ⟨by simp [rm_rf, hc, os_remove, hl],
      fun q hq => lookup_fsEraseEntry fs p q hq⟩
  · intro hl
    have hdir : os_isdir fs p = true := by
      simp [os_isdir, resolveNode, hl]
    have hlink : os_islink fs p = false := by simp [os_islink, hl]
    have hc : (os_isdir fs p && ! os_islink fs p) = true := by
      simp [hdir, hlink]
    simp [rm_rf, hc]
  · intro hl
    have hdir : os_isdir fs p = false := by
      simp [os_isdir, resolveNode, hl]
    have hc : (os_isdir fs p && ! os_islink fs p) = false := by
      simp [hdir]
    simp [rm_rf, hc, os_remove, hl]
  · intro hl
    have hdir : os_isdir fs p = false := by
      simp [os_isdir, resolveNode, hl]
    have hc : (os_isdir fs p && ! os_islink fs p) = false := by
      simp [hdir]
    simp [rm_rf, hc, os_remove, hl]

/-- C9 witness: removing a symbolic link removes only the link entry and
leaves the referent's binding untouched; the log line is emitted. -/
theorem rm_rf_spec_witness :
    rm_rf [("build/link", FsNode.link "pydoop/real"), ("pydoop/real", FsNode.file)]
        "build/link" false =
      .ok ([("pydoop/real", FsNode.file)], ["removing build/link"]) ∧
    List.lookup "pydoop/real"
        (fsEraseEntry
          [("build/link", FsNode.link "pydoop/real"), ("pydoop/real", FsNode.file)]
          "build/link") =
      List.lookup "pydoop/real"
        [("build/link", FsNode.link "pydoop/real"), ("pydoop/real", FsNode.file)] :=
  ⟨((rm_rf_spec
      [("build/link", FsNode.link "pydoop/real"), ("pydoop/real", FsNode.file)]
      "build/link").2.1 "pydoop/real" rfl).1,
   ((rm_rf_spec
      [("build/link", FsNode.link "pydoop/real"), ("pydoop/real", FsNode.file)]
      "build/link").2.1 "pydoop/real" rfl).2 "pydoop/real" (by decide)⟩

/-! ### JVM-component build and pipeline cleanup (setup.py lines 221-321)

For the pipeline stages only the set of existing directories matters; the
filesystem is a list of directory paths.  External process invocations
(`os.system`) are a parameter mapping each command line to its exit
status.  `BuildPydoop.run` wraps workspace creation and the Java build in
`try/finally`, with `clean_up` (a bare `shutil.rmtree(self.build_temp)`)
in the `finally` block; an exception raised by the `finally` block
replaces the body's exception, as in Python. -/

/-- Directory-level filesystem: the list of existing directories. -/
abbrev DirFS := List String

/-- `shutil.rmtree` at directory granularity: remove the directory and its
subtree, `OSError` if it does not exist. -/
def rmtreeDir (fs : DirFS) (d : String) : Except PyErr DirFS :=
  if d ∈ fs then
    .ok (fs.filter (fun q => !(q == d || (d ++ "/").isPrefixOf q)))
  else .error .osError

/-- `BuildPydoop.clean_up` (setup.py lines 301-302): a bare
`shutil.rmtree(self.build_temp)` with no exception handling. -/
def clean_up (fs : DirFS) (build_temp : String) : Except PyErr DirFS :=
  rmtreeDir fs build_temp

/-- `BuildPydoop.create_tmp` (setup.py lines 295-299): `os.mkdir` the build
temp and build lib directories when absent. -/
def create_tmp (build_temp build_lib : String) (fs : DirFS) : DirFS :=
  let fs1 := if build_temp ∈ fs then fs else build_temp :: fs
  if build_lib ∈ fs1 then fs1 else build_lib :: fs1

/-- The per-`JavaLib` data and external-process behaviour consumed by
`JavaBuilder.__build_java_lib`: the classpath (`""` models a falsy value),
the jar name, `str(hadoop_vinfo)`, the resolved Java source files, and the
exit status `os.system` yields for each command line. -/
structure JavaBuildEnv where
  classpath : String
  jar_name : String
  vstr : String
  java_files : List String
  system : String → Int

/-- The `compile_cmd` string built by `__build_java_lib` (setup.py lines
237-253): `javac`, an optional `-classpath`, `-d '<class_dir>'`, then every
source file. -/
def compile_cmd (env : JavaBuildEnv) (class_dir : String) : String :=
  let c := "javac"
  let c := if env.classpath ≠ "" then c ++ " -classpath " ++ env.classpath else c
  let c := c ++ " -d '" ++ class_dir ++ "'"
  env.java_files.foldl (fun acc f => acc ++ " " ++ f) c

/-- The `package_cmd` string (setup.py lines 260-262). -/
def package_cmd (package_path class_dir : String) : String :=
  "jar -cf " ++ package_path ++ " -C " ++ class_dir ++ " ./it"

/-- `JavaBuilder.__build_java_lib` (setup.py lines 235-269): make the class
directory, run the compiler, raise `DistutilsSetupError` naming the exact
command on a non-zero status, then run the archiver with the same error
contract.  (`os.mkdir` is modelled as always succeeding: the pipeline calls
this only after `create_tmp` has made the parent.) -/
def build_java_lib (env : JavaBuildEnv) (build_temp build_lib : String)
    (fs : DirFS) : DirFS × Except PyErr Unit :=
  let class_dir := pathJoin build_temp ("pipes-" ++ env.vstr)
  let package_path := pathJoin (pathJoin build_lib "pydoop") env.jar_name
  let fs := if class_dir ∈ fs then fs else class_dir :: fs
  let cc := compile_cmd env class_dir
  if env.system cc ≠ 0 then
    (fs, .error (.distutilsSetupError ("Error compiling java component.  Command: " ++ cc)))
  else
    let pc := package_cmd package_path class_dir
    if env.system pc ≠ 0 then
      (fs, .error (.distutilsSetupError ("Error packaging java component.  Command: " ++ pc)))
    else (fs, .ok ())

/-- Result of the guarded part of `BuildPydoop.run`: the final directory
set, whether the cleanup stage was executed, and the propagated outcome. -/
structure PhaseResult where
  fs : DirFS
  cleanupRan : Bool
  outcome : Except PyErr Unit

/-- The `try/finally` tail of `BuildPydoop.run` (setup.py lines 312-320):
`create_tmp` and the Java build in the `try` body, then — unconditionally —
the grace delay and `clean_up`.  A `clean_up` exception replaces the body's
outcome (Python `finally` semantics); otherwise the body's outcome is
re-raised or returned. -/
def run_java_phase (env : JavaBuildEnv) (build_temp build_lib : String)
    (fs0 : DirFS) : PhaseResult :=
  let fs1 := create_tmp build_temp build_lib fs0
  let (fs2, body) := build_java_lib env build_temp build_lib fs1
  match clean_up fs2 build_temp with
  | .error e => ⟨fs2, true, .error e⟩
  | .ok fs3 => ⟨fs3, true, body⟩

theorem mem_create_tmp (build_temp build_lib : String) (fs : DirFS) :
    build_temp ∈ create_tmp build_temp build_lib fs := by
  unfold create_tmp
  have hbt : build_temp ∈ (if build_temp ∈ fs then fs else build_temp :: fs) := by
    by_cases h : build_temp ∈ fs <;> simp [h]
  by_cases h2 : build_lib ∈ (if build_temp ∈ fs then fs else build_temp :: fs) <;>
    simp [h2, hbt]

/-- C5: When the compiler invocation exits with a non-zero status, the
pipeline still executes the cleanup stage (which actually removes the
workspace) and then propagates a `DistutilsSetupError` whose message is the
fixed prefix followed by the exact failing command line. -/
theorem compile_failure_still_cleans_up_and_reports (env : JavaBuildEnv)
    (build_temp build_lib : String) (fs0 : DirFS)
    (hfail : env.system
      (compile_cmd env (pathJoin build_temp ("pipes-" ++ env.vstr))) ≠ 0) :
    (run_java_phase env build_temp build_lib fs0).cleanupRan = true ∧
    build_temp ∉ (run_java_phase env build_temp build_lib fs0).fs ∧
    (run_java_phase env build_temp build_lib fs0).outcome =
      .error (.distutilsSetupError
        ("Error compiling java component.  Command: " ++
          compile_cmd env (pathJoin build_temp ("pipes-" ++ env.vstr)))) := by
  have hbt1 : build_temp ∈ create_tmp build_temp build_lib fs0 :=
    mem_create_tmp build_temp build_lib fs0
  by_cases hcdm : pathJoin build_temp ("pipes-" ++ env.vstr) ∈
      create_tmp build_temp build_lib fs0
  · have hres : run_java_phase env build_temp build_lib fs0 =
        ⟨(create_tmp build_temp build_lib fs0).filter
            (fun q => !(q == build_temp || (build_temp ++ "/").isPrefixOf q)),
          true,
          .error (.distutilsSetupError
            ("Error compiling java component.  Command: " ++
              compile_cmd env (pathJoin build_temp ("pipes-" ++ env.vstr))))⟩ := by
      simp [run_java_phase, build_java_lib, clean_up, rmtreeDir, hcdm, hfail, hbt1]
    refine ⟨by rw [hres], ?_, by rw [hres]⟩
    rw [hres]
    simp [List.mem_filter]
  · have hbt2 : build_temp ∈ pathJoin build_temp ("pipes-" ++ env.vstr) ::
        create_tmp build_temp build_lib fs0 := List.mem_cons_of_mem _ hbt1
    have hres : run_java_phase env build_temp build_lib fs0 =
        ⟨(pathJoin build_temp ("pipes-" ++ env.vstr) ::
            create_tmp build_temp build_lib fs0).filter
            (fun q => !(q == build_temp || (build_temp ++ "/").isPrefixOf q)),
          true,
          .error (.distutilsSetupError
            ("Error compiling java component.  Command: " ++
              compile_cmd env (pathJoin build_temp ("pipes-" ++ env.vstr))))⟩ := by
      simp [run_java_phase, build_java_lib, clean_up, rmtreeDir, hcdm, hfail, hbt2]
    refine ⟨by rw [hres], ?_, by rw [hres]⟩
    rw [hres]
    simp [List.mem_filter]

/-- C5 witness: a concrete environment whose compiler exits with status 1. -/
theorem compile_failure_still_cleans_up_and_reports_witness :
    (run_java_phase
        ⟨"hadoop-core.jar", "pydoop.jar", "2.6.0",
          ["src/it/crs4/pydoop/NoSeparatorTextOutputFormat.java"],
          fun _ => 1⟩
        "build/temp.linux" "build/lib.linux" []).cleanupRan = true ∧
    "build/temp.linux" ∉
      (run_java_phase
        ⟨"hadoop-core.jar", "pydoop.jar", "2.6.0",
          ["src/it/crs4/pydoop/NoSeparatorTextOutputFormat.java"],
          fun _ => 1⟩
        "build/temp.linux" "build/lib.linux" []).fs ∧
    (run_java_phase
        ⟨"hadoop-core.jar", "pydoop.jar", "2.6.0",
          ["src/it/crs4/pydoop/NoSeparatorTextOutputFormat.java"],
          fun _ => 1⟩
        "build/temp.linux" "build/lib.linux" []).outcome =
      .error (.distutilsSetupError
        ("Error compiling java component.  Command: " ++
          compile_cmd
            ⟨"hadoop-core.jar", "pydoop.jar", "2.6.0",
              ["src/it/crs4/pydoop/NoSeparatorTextOutputFormat.java"],
              fun _ => 1⟩
            (pathJoin "build/temp.linux" ("pipes-" ++ "2.6.0")))) :=
  compile_failure_still_cleans_up_and_reports
    ⟨"hadoop-core.jar", "pydoop.jar", "2.6.0",
      ["src/it/crs4/pydoop/NoSeparatorTextOutputFormat.java"],
      fun _ => 1⟩
    "build/temp.linux" "build/lib.linux" [] (by decide)

/-- C6 counterexample: `BuildPydoop.clean_up` is a bare `shutil.rmtree`;
invoked when the workspace directory no longer exists it raises `OSError`
instead of returning normally. -/
theorem clean_up_missing_workspace_raises :
    clean_up [] "build/temp.linux-x86_64-2.7" = .error .osError := by decide

/-- C6 amended: the cleanup stage returns normally exactly when the
workspace exists (removing its subtree); when the workspace no longer
exists it raises `OSError`.  (Within the pipeline the workspace-creation
stage precedes it inside the same `try`, so the normal path exists.) -/
theorem clean_up_ok_iff_workspace_exists (fs : DirFS) (build_temp : String) :
    (build_temp ∈ fs →
      clean_up fs build_temp =
        .ok (fs.filter
          (fun q => !(q == build_temp || (build_temp ++ "/").isPrefixOf q)))) ∧
    (build_temp ∉ fs → clean_up fs build_temp = .error .osError) := by
  constructor <;> intro h <;> simp [clean_up, rmtreeDir, h]

/-- C6 amended-claim witness: cleanup succeeds on an existing workspace. -/
theorem clean_up_ok_iff_workspace_exists_witness :
    clean_up ["build/temp.linux-x86_64-2.7"] "build/temp.linux-x86_64-2.7" =
      .ok [] :=
  (clean_up_ok_iff_workspace_exists ["build/temp.linux-x86_64-2.7"]
    "build/temp.linux-x86_64-2.7").1 (by decide)

/-! ### Artifact generation (`write_config` / `write_version`, setup.py 105-149)

For the generated text artifacts the filesystem maps each path to its
content and modification time.  Writes prepend a fresh binding (lookup
takes the first, so a write shadows the old binding); the pipeline clock
supplies strictly increasing modification times, though none of the
content results below depend on that.  The outcome of the external
`git rev-parse HEAD` invocation is a parameter. -/

/-- A file's content together with its modification time. -/
structure FileRec where
  content : String
  mt : Int
  deriving DecidableEq, Repr

/-- Path ↦ (content, mtime) association list. -/
abbrev ContentFS := List (String × FileRec)

/-- Write (or overwrite) a file: prepend a fresh binding. -/
def fsWrite (fs : ContentFS) (p : String) (c : String) (t : Int) : ContentFS :=
  (p, ⟨c, t⟩) :: fs

/-- Forget contents, keeping modification times (the view `must_generate`
sees through `os.stat`). -/
def toMtimeFS (fs : ContentFS) : MtimeFS :=
  fs.map (fun e => (e.1, e.2.mt))

theorem lookup_fsWrite_self (fs : ContentFS) (p c : String) (t : Int) :
    List.lookup p (fsWrite fs p c t) = some ⟨c, t⟩ := by
  simp [fsWrite, List.lookup]

theorem lookup_fsWrite_ne (fs : ContentFS) (p q c : String) (t : Int) (h : q ≠ p) :
    List.lookup q (fsWrite fs p c t) = List.lookup q fs := by
  have hb : (q == p) = false := by simp [h]
  simp [fsWrite, List.lookup, hb]

theorem lookup_toMtimeFS (fs : ContentFS) (p : String) :
    List.lookup p (toMtimeFS fs) = Option.map FileRec.mt (List.lookup p fs) := by
  induction fs with
  | nil => rfl
  | cons e rest ih =>
      obtain ⟨k, v⟩ := e
      by_cases hk : p = k
      · subst hk
        simp [toMtimeFS, List.lookup]
      · have hb : (p == k) = false := by simp [hk]
        simp [toMtimeFS, List.lookup, hb] at ih ⊢
        exact ih

/-- `isStaleSpec` over a single prerequisite depends only on the two
lookups involved. -/
theorem isStaleSpec_congr (fsX fsY : MtimeFS) (target p : String)
    (ht : List.lookup target fsX = List.lookup target fsY)
    (hp : List.lookup p fsX = List.lookup p fsY) :
    isStaleSpec fsX target [p] = isStaleSpec fsY target [p] := by
  simp [isStaleSpec, staleAt, ht, hp]

/-- Result of one `git rev-parse HEAD` attempt (external process):
success with an output string, a non-zero exit status
(`subprocess.CalledProcessError`), or an OS-level failure to launch the
executable (`OSError`, e.g. git not installed). -/
inductive GitResult where
  | ok (stdout : String)
  | exitNonzero
  | launchFailure
  deriving DecidableEq, Repr

/-- Python `str.rstrip('\n')`: drop trailing newline characters. -/
def rstripNewlines (s : String) : String :=
  String.mk (List.reverse (s.data.reverse.dropWhile (fun c => c == '\n')))

/-- `get_git_commit` (setup.py lines 133-137): `check_output` wrapped in
`except subprocess.CalledProcessError` only — a non-zero exit yields
`None`, but an OS-level launch failure propagates. -/
def get_git_commit (g : GitResult) : Except PyErr (Option String) :=
  match g with
  | .ok s => .ok (some (rstripNewlines s))
  | .exitNonzero => .ok none
  | .launchFailure => .error .osError

/-- Python `str.strip()`: drop leading and trailing whitespace. -/
def pyStrip (s : String) : String :=
  String.mk (((s.data.dropWhile Char.isWhitespace).reverse.dropWhile
    Char.isWhitespace).reverse)

/-- `get_version_string` (setup.py lines 97-102): read and strip the
version-declaration file; a read failure (missing file) becomes
`DistutilsSetupError`. -/
def get_version_string (fs : ContentFS) (filename : String) : Except PyErr String :=
  match List.lookup filename fs with
  | some r => .ok (pyStrip r.content)
  | none => .error (.distutilsSetupError "failed to read version info")

/-- Content of the generated version file (setup.py lines 146-149): the
header, then `version='<version>[ [<commit>]]'`; the revision field is
omitted when the commit is `None`. -/
def versionFileContent (version : String) (git_commit : Option String) : String :=
  "# GENERATED BY setup.py\n" ++
    ("version='" ++ version ++
      (match git_commit with
       | none => ""
       | some c => " [" ++ c ++ "]") ++ "'\n")

/-- Content of the generated runtime-config file (setup.py lines 111-114). -/
def configFileContent (hadoop_home hdfs_core_impl : String) : String :=
  "# GENERATED BY setup.py\n" ++
    ("DEFAULT_HADOOP_HOME='" ++ hadoop_home ++ "'\n") ++
    ("HDFS_CORE_IMPL='" ++ hdfs_core_impl ++ "'\n")

/-- The marker-file step of `write_config` (setup.py lines 106-109): write
`DEFAULT_HADOOP_HOME` only when it does not already exist. -/
def markerStep (hadoop_home : String) (fs : ContentFS) (clock : Int) :
    ContentFS × Int :=
  if (List.lookup "DEFAULT_HADOOP_HOME" fs).isNone then
    (fsWrite fs "DEFAULT_HADOOP_HOME" (hadoop_home ++ "\n") clock, clock + 1)
  else (fs, clock)

/-- `write_config` (setup.py lines 105-114): persist the marker if absent,
then unconditionally (the staleness gate is commented out in the source)
rewrite `pydoop/config.py`. -/
def write_config (hadoop_home hdfs_core_impl : String) (fs : ContentFS)
    (clock : Int) : ContentFS × Int :=
  (fsWrite (markerStep hadoop_home fs clock).1 "pydoop/config.py"
      (configFileContent hadoop_home hdfs_core_impl)
      (markerStep hadoop_home fs clock).2,
   (markerStep hadoop_home fs clock).2 + 1)

/-- `write_version` (setup.py lines 140-149): gated by `must_generate`
against the `VERSION` prerequisite; on regeneration read the version
string, attempt the git commit, and write the version file. -/
def write_version (g : GitResult) (fs : ContentFS) (clock : Int) :
    Except PyErr (ContentFS × Int) :=
  match must_generate (toMtimeFS fs) "pydoop/version.py" ["VERSION"] with
  | .error e => .error e
  | .ok false => .ok (fs, clock)
  | .ok true =>
      match get_version_string fs "VERSION" with
      | .error e => .error e
      | .ok version =>
          match get_git_commit g with
          | .error e => .error e
          | .ok gc =>
              .ok (fsWrite fs "pydoop/version.py" (versionFileContent version gc) clock,
                clock + 1)

/-- The artifact-generation prefix of `BuildPydoop.run` (setup.py lines
306-307): `write_config` then `write_version`. -/
def genArtifacts (hadoop_home hdfs_core_impl : String) (g : GitResult)
    (fs : ContentFS) (clock : Int) : Except PyErr (ContentFS × Int) :=
  write_version g
    (write_config hadoop_home hdfs_core_impl fs clock).1
    (write_config hadoop_home hdfs_core_impl fs clock).2

theorem write_version_inv (g : GitResult) (fs : ContentFS) (clock : Int)
    (fs' : ContentFS) (c' : Int)
    (h : write_version g fs clock = .ok (fs', c')) :
    (must_generate (toMtimeFS fs) "pydoop/version.py" ["VERSION"] = .ok false ∧
      fs' = fs ∧ c' = clock) ∨
    (∃ version gc,
      must_generate (toMtimeFS fs) "pydoop/version.py" ["VERSION"] = .ok true ∧
      get_version_string fs "VERSION" = .ok version ∧
      get_git_commit g = .ok gc ∧
      fs' = fsWrite fs "pydoop/version.py" (versionFileContent version gc) clock ∧
      c' = clock + 1) := by
  cases hmg : must_generate (toMtimeFS fs) "pydoop/version.py" ["VERSION"] with
  | error e => simp [write_version, hmg] at h
  | ok b =>
      cases b with
      | false =>
          simp only [write_version, hmg] at h
          left
          exact ⟨rfl, by simpa using congrArg (fun r => r.1) (Except.ok.inj h).symm,
            by simpa using congrArg (fun r => r.2) (Except.ok.inj h).symm⟩
      | true =>
          cases hv : get_version_string fs "VERSION" with
          | error e => simp [write_version, hmg, hv] at h
          | ok version =>
              cases hg : get_git_commit g with
              | error e => simp [write_version, hmg, hv, hg] at h
              | ok gc =>
                  simp only [write_version, hmg, hv, hg] at h
                  right
                  exact ⟨version, gc, rfl, rfl, rfl,
                    by simpa using congrArg (fun r => r.1) (Except.ok.inj h).symm,
                    by simpa using congrArg (fun r => r.2) (Except.ok.inj h).symm⟩

theorem lookup_write_config_other (hadoop_home hdfs_core_impl : String)
    (fs : ContentFS) (clock : Int) (q : String)
    (h1 : q ≠ "pydoop/config.py") (h2 : q ≠ "DEFAULT_HADOOP_HOME") :
    List.lookup q (write_config hadoop_home hdfs_core_impl fs clock).1 =
      List.lookup q fs := by
  rw [write_config]
  rw [lookup_fsWrite_ne _ _ _ _ _ h1]
  unfold markerStep
  by_cases hm : (List.lookup "DEFAULT_HADOOP_HOME" fs).isNone
  · simp only [hm, if_pos]
    exact lookup_fsWrite_ne _ _ _ _ _ h2
  · simp [hm]

theorem lookup_write_config_config (hadoop_home hdfs_core_impl : String)
    (fs : ContentFS) (clock : Int) :
    List.lookup "pydoop/config.py" (write_config hadoop_home hdfs_core_impl fs clock).1 =
      some ⟨configFileContent hadoop_home hdfs_core_impl,
        (markerStep hadoop_home fs clock).2⟩ := by
  rw [write_config]
  exact lookup_fsWrite_self _ _ _ _

theorem lookup_write_config_marker_of_some (hadoop_home hdfs_core_impl : String)
    (fs : ContentFS) (clock : Int) (r : FileRec)
    (h : List.lookup "DEFAULT_HADOOP_HOME" fs = some r) :
    List.lookup "DEFAULT_HADOOP_HOME"
      (write_config hadoop_home hdfs_core_impl fs clock).1 = some r := by
  rw [write_config]
  rw [lookup_fsWrite_ne _ _ _ _ _ (by decide)]
  unfold markerStep
  simp [h]

theorem lookup_write_config_marker_of_none (hadoop_home hdfs_core_impl : String)
    (fs : ContentFS) (clock : Int)
    (h : List.lookup "DEFAULT_HADOOP_HOME" fs = none) :
    List.lookup "DEFAULT_HADOOP_HOME"
      (write_config hadoop_home hdfs_core_impl fs clock).1 =
      some ⟨hadoop_home ++ "\n", clock⟩ := by
  rw [write_config]
  rw [lookup_fsWrite_ne _ _ _ _ _ (by decide)]
  unfold markerStep
  simp only [h, Option.isNone_none, if_pos]
  exact lookup_fsWrite_self _ _ _ _

/-- C7 counterexample: the revision attempt has a failure mode the code
does not catch.  With `VERSION` present and the version file stale, an
OS-level failure to launch git (`OSError`, e.g. git not installed) is not
a `subprocess.CalledProcessError`, so `write_version` propagates it and
writes nothing instead of succeeding without the revision field. -/
theorem write_version_git_launch_failure_propagates :
    write_version GitResult.launchFailure [("VERSION", ⟨"1.0.0\n", 0⟩)] 5 =
      .error .osError := by decide

/-- C7 amended: only a git failure of the caught kind (a non-zero exit
status, `subprocess.CalledProcessError`) is best-effort: then the version
file is still written, containing the declared version string and omitting
the revision field (or is left alone when not stale).  An OS-level launch
failure instead propagates (see the counterexample). -/
theorem write_version_omits_commit_on_nonzero_exit (fs : ContentFS) (clock : Int)
    (vrec : FileRec) (hver : List.lookup "VERSION" fs = some vrec) :
    (must_generate (toMtimeFS fs) "pydoop/version.py" ["VERSION"] = .ok true →
      write_version GitResult.exitNonzero fs clock =
        .ok (fsWrite fs "pydoop/version.py"
          (versionFileContent (pyStrip vrec.content) none) clock, clock + 1)) ∧
    (must_generate (toMtimeFS fs) "pydoop/version.py" ["VERSION"] = .ok false →
      write_version GitResult.exitNonzero fs clock = .ok (fs, clock)) ∧
    versionFileContent (pyStrip vrec.content) none =
      "# GENERATED BY setup.py\n" ++ ("version='" ++ pyStrip vrec.content ++ "'\n") := by
  refine ⟨?_, ?_, ?_⟩
  · intro hstale
    simp [write_version, hstale, get_version_string, hver, get_git_commit]
  · intro hfresh
    simp [write_version, hfresh]
  · simp [versionFileContent]

/-- C7 amended-claim witness: concrete stale state, git exits non-zero. -/
theorem write_version_omits_commit_on_nonzero_exit_witness :
    write_version GitResult.exitNonzero [("VERSION", ⟨"1.0.0\n", 0⟩)] 5 =
      .ok (fsWrite [("VERSION", ⟨"1.0.0\n", 0⟩)] "pydoop/version.py"
        (versionFileContent (pyStrip (FileRec.mk "1.0.0\n" 0).content) none) 5, 5 + 1) :=
  (write_version_omits_commit_on_nonzero_exit
    [("VERSION", ⟨"1.0.0\n", 0⟩)] 5 ⟨"1.0.0\n", 0⟩ rfl).1 (by decide)

/-- The staleness check of `write_version` is unchanged by a preceding
`write_config`: the config writes touch neither `pydoop/version.py` nor
`VERSION`. -/
theorem stalecheck_stable (hadoop_home hdfs_core_impl : String)
    (fs : ContentFS) (clock : Int) :
    must_generate (toMtimeFS (write_config hadoop_home hdfs_core_impl fs clock).1)
        "pydoop/version.py" ["VERSION"] =
      must_generate (toMtimeFS fs) "pydoop/version.py" ["VERSION"] := by
  rw [must_generate_eq_ok_staleSpec, must_generate_eq_ok_staleSpec]
  congr 1
  apply isStaleSpec_congr
  · rw [lookup_toMtimeFS, lookup_toMtimeFS,
      lookup_write_config_other _ _ _ _ _ (by decide) (by decide)]
  · rw [lookup_toMtimeFS, lookup_toMtimeFS,
      lookup_write_config_other _ _ _ _ _ (by decide) (by decide)]

/-- C8: Running the artifact-generation phase twice with unchanged inputs
(same detected home, same implementation mode, same git outcome, no
external modification between runs) is a no-op on content: the runtime
config, the version file and the marker file have byte-identical contents
after the second run and after the first. -/
theorem genArtifacts_content_idempotent
    (hadoop_home hdfs_core_impl : String) (g : GitResult)
    (fs0 fs1 fs2 : ContentFS) (c0 c1 c2 : Int)
    (h1 : genArtifacts hadoop_home hdfs_core_impl g fs0 c0 = .ok (fs1, c1))
    (h2 : genArtifacts hadoop_home hdfs_core_impl g fs1 c1 = .ok (fs2, c2)) :
    Option.map FileRec.content (List.lookup "pydoop/config.py" fs2) =
      Option.map FileRec.content (List.lookup "pydoop/config.py" fs1) ∧
    Option.map FileRec.content (List.lookup "pydoop/version.py" fs2) =
      Option.map FileRec.content (List.lookup "pydoop/version.py" fs1) ∧
    Option.map FileRec.content (List.lookup "DEFAULT_HADOOP_HOME" fs2) =
      Option.map FileRec.content (List.lookup "DEFAULT_HADOOP_HOME" fs1) := by
  unfold genArtifacts at h1 h2
  have hfs1ne : ∀ q, q ≠ "pydoop/version.py" →
      List.lookup q fs1 =
        List.lookup q (write_config hadoop_home hdfs_core_impl fs0 c0).1 := by
    rcases write_version_inv g _ _ _ _ h1 with ⟨-, hEq, -⟩ | ⟨v, gc, -, -, -, hEq, -⟩
    · intro q _
      rw [hEq]
    · intro q hq
      rw [hEq]
      exact lookup_fsWrite_ne _ _ _ _ _ hq
  have hfs2ne : ∀ q, q ≠ "pydoop/version.py" →
      List.lookup q fs2 =
        List.lookup q (write_config hadoop_home hdfs_core_impl fs1 c1).1 := by
    rcases write_version_inv g _ _ _ _ h2 with ⟨-, hEq, -⟩ | ⟨v, gc, -, -, -, hEq, -⟩
    · intro q _
      rw [hEq]
    · intro q hq
      rw [hEq]
      exact lookup_fsWrite_ne _ _ _ _ _ hq
  refine ⟨?_, ?_, ?_⟩
  · rw [hfs2ne _ (by decide), hfs1ne _ (by decide),
      lookup_write_config_config, lookup_write_config_config]
    rfl
  · rcases write_version_inv g _ _ _ _ h1 with
      ⟨hmg1, hfs1eq, -⟩ | ⟨version, gc, hmg1, hv1, hg1, hfs1eq, -⟩
    · rcases write_version_inv g _ _ _ _ h2 with
        ⟨hmg2, hfs2eq, -⟩ | ⟨v2, gc2, hmg2, hv2, hg2, hfs2eq, -⟩
      · rw [hfs2eq, lookup_write_config_other _ _ _ _ _ (by decide) (by decide)]
      · exfalso
        rw [stalecheck_stable, hfs1eq, hmg1] at hmg2
        simp at hmg2
    · rcases write_version_inv g _ _ _ _ h2 with
        ⟨hmg2, hfs2eq, -⟩ | ⟨v2, gc2, hmg2, hv2, hg2, hfs2eq, -⟩
      · rw [hfs2eq, lookup_write_config_other _ _ _ _ _ (by decide) (by decide)]
      · have hVERSION : List.lookup "VERSION"
            (write_config hadoop_home hdfs_core_impl fs1 c1).1 =
            List.lookup "VERSION" (write_config hadoop_home hdfs_core_impl fs0 c0).1 := by
          rw [lookup_write_config_other _ _ _ _ _ (by decide) (by decide), hfs1eq,
            lookup_fsWrite_ne _ _ _ _ _ (by decide)]
        have hv2' : get_version_string
            (write_config hadoop_home hdfs_core_impl fs1 c1).1 "VERSION" =
            get_version_string
              (write_config hadoop_home hdfs_core_impl fs0 c0).1 "VERSION" := by
          unfold get_version_string
          rw [hVERSION]
        rw [hv2', hv1] at hv2
        have hveq : v2 = version := (Except.ok.inj hv2).symm
        have hgeq : gc2 = gc := by
          rw [hg1] at hg2
          exact (Except.ok.inj hg2).symm
        rw [hfs2eq, hfs1eq, lookup_fsWrite_self, lookup_fsWrite_self]
        simp [hveq, hgeq]
  · have hm1 : ∃ r, List.lookup "DEFAULT_HADOOP_HOME" fs1 = some r := by
      rw [hfs1ne _ (by decide)]
      cases hm0 : List.lookup "DEFAULT_HADOOP_HOME" fs0 with
      | some r => exact ⟨r, lookup_write_config_marker_of_some _ _ _ _ r hm0⟩
      | none => exact ⟨_, lookup_write_config_marker_of_none _ _ _ _ hm0⟩
    rcases hm1 with ⟨r, hr⟩
    rw [hfs2ne _ (by decide), lookup_write_config_marker_of_some _ _ _ _ r hr, hr]

/-- C8 witness: two concrete consecutive runs (the second regenerates the
config and skips the version file) leave all three artifact contents
byte-identical. -/
theorem genArtifacts_content_idempotent_witness :
    Option.map FileRec.content (List.lookup "pydoop/config.py"
      [("pydoop/config.py",
        ⟨"# GENERATED BY setup.py\nDEFAULT_HADOOP_HOME='/opt/hadoop'\nHDFS_CORE_IMPL='native'\n", 4⟩),
       ("pydoop/version.py", ⟨"# GENERATED BY setup.py\nversion='1.0.0'\n", 3⟩),
       ("pydoop/config.py",
        ⟨"# GENERATED BY setup.py\nDEFAULT_HADOOP_HOME='/opt/hadoop'\nHDFS_CORE_IMPL='native'\n", 2⟩),
       ("DEFAULT_HADOOP_HOME", ⟨"/opt/hadoop\n", 1⟩),
       ("VERSION", ⟨"1.0.0\n", 0⟩)]) =
    Option.map FileRec.content (List.lookup "pydoop/config.py"
      [("pydoop/version.py", ⟨"# GENERATED BY setup.py\nversion='1.0.0'\n", 3⟩),
       ("pydoop/config.py",
        ⟨"# GENERATED BY setup.py\nDEFAULT_HADOOP_HOME='/opt/hadoop'\nHDFS_CORE_IMPL='native'\n", 2⟩),
       ("DEFAULT_HADOOP_HOME", ⟨"/opt/hadoop\n", 1⟩),
       ("VERSION", ⟨"1.0.0\n", 0⟩)]) ∧
    Option.map FileRec.content (List.lookup "pydoop/version.py"
      [("pydoop/config.py",
        ⟨"# GENERATED BY setup.py\nDEFAULT_HADOOP_HOME='/opt/hadoop'\nHDFS_CORE_IMPL='native'\n", 4⟩),
       ("pydoop/version.py", ⟨"# GENERATED BY setup.py\nversion='1.0.0'\n", 3⟩),
       ("pydoop/config.py",
        ⟨"# GENERATED BY setup.py\nDEFAULT_HADOOP_HOME='/opt/hadoop'\nHDFS_CORE_IMPL='native'\n", 2⟩),
       ("DEFAULT_HADOOP_HOME", ⟨"/opt/hadoop\n", 1⟩),
       ("VERSION", ⟨"1.0.0\n", 0⟩)]) =
    Option.map FileRec.content (List.lookup "pydoop/version.py"
      [("pydoop/version.py", ⟨"# GENERATED BY setup.py\nversion='1.0.0'\n", 3⟩),
       ("pydoop/config.py",
        ⟨"# GENERATED BY setup.py\nDEFAULT_HADOOP_HOME='/opt/hadoop'\nHDFS_CORE_IMPL='native'\n", 2⟩),
       ("DEFAULT_HADOOP_HOME", ⟨"/opt/hadoop\n", 1⟩),
       ("VERSION", ⟨"1.0.0\n", 0⟩)]) ∧
    Option.map FileRec.content (List.lookup "DEFAULT_HADOOP_HOME"
      [("pydoop/config.py",
        ⟨"# GENERATED BY setup.py\nDEFAULT_HADOOP_HOME='/opt/hadoop'\nHDFS_CORE_IMPL='native'\n", 4⟩),
       ("pydoop/version.py", ⟨"# GENERATED BY setup.py\nversion='1.0.0'\n", 3⟩),
       ("pydoop/config.py",
        ⟨"# GENERATED BY setup.py\nDEFAULT_HADOOP_HOME='/opt/hadoop'\nHDFS_CORE_IMPL='native'\n", 2⟩),
       ("DEFAULT_HADOOP_HOME", ⟨"/opt/hadoop\n", 1⟩),
       ("VERSION", ⟨"1.0.0\n", 0⟩)]) =
    Option.map FileRec.content (List.lookup "DEFAULT_HADOOP_HOME"
      [("pydoop/version.py", ⟨"# GENERATED BY setup.py\nversion='1.0.0'\n", 3⟩),
       ("pydoop/config.py",
        ⟨"# GENERATED BY setup.py\nDEFAULT_HADOOP_HOME='/opt/hadoop'\nHDFS_CORE_IMPL='native'\n", 2⟩),
       ("DEFAULT_HADOOP_HOME", ⟨"/opt/hadoop\n", 1⟩),
       ("VERSION", ⟨"1.0.0\n", 0⟩)]) :=
  genArtifacts_content_idempotent "/opt/hadoop" "native" GitResult.exitNonzero
    [("VERSION", ⟨"1.0.0\n", 0⟩)]
    [("pydoop/version.py", ⟨"# GENERATED BY setup.py\nversion='1.0.0'\n", 3⟩),
     ("pydoop/config.py",
      ⟨"# GENERATED BY setup.py\nDEFAULT_HADOOP_HOME='/opt/hadoop'\nHDFS_CORE_IMPL='native'\n", 2⟩),
     ("DEFAULT_HADOOP_HOME", ⟨"/opt/hadoop\n", 1⟩),
     ("VERSION", ⟨"1.0.0\n", 0⟩)]
    [("pydoop/config.py",
      ⟨"# GENERATED BY setup.py\nDEFAULT_HADOOP_HOME='/opt/hadoop'\nHDFS_CORE_IMPL='native'\n", 4⟩),
     ("pydoop/version.py", ⟨"# GENERATED BY setup.py\nversion='1.0.0'\n", 3⟩),
     ("pydoop/config.py",
      ⟨"# GENERATED BY setup.py\nDEFAULT_HADOOP_HOME='/opt/hadoop'\nHDFS_CORE_IMPL='native'\n", 2⟩),
     ("DEFAULT_HADOOP_HOME", ⟨"/opt/hadoop\n", 1⟩),
     ("VERSION", ⟨"1.0.0\n", 0⟩)]
    1 4 5 (by decide) (by decide)
